import Mathlib

/-!
Verification of the LaundryOS order API against its specification.

The definitions below are a shallow embedding of the TypeScript source:
  * `laundry-api/src/routes/orders.ts` — order creation (`router.post('/')`)
    and the status transition endpoint (`router.patch('/:id/status')`);
  * `src/pages/NewOrder.tsx` — the cash payment calculator
    (`calculateCashTotal`, `updateCashDenomination`).

Money amounts (JavaScript `number`) are modelled as rationals, timestamps
(`new Date()`) as natural numbers supplied by the caller, and the database
state needed by a route as explicit arguments.  Fallible routes return
`Except`.
-/

namespace LaundryOS

/-- A stored order item, as created by the order route: `name` is trimmed,
`price` is `parseFloat(item.price.toFixed(2))`, `quantity` is
`parseInt(item.quantity, 10)`. -/
structure OrderItem where
  name : String
  price : ℚ
  quantity : ℤ
  notes : Option String
deriving DecidableEq, Repr

/-- A stored order row.  The fields mirror the Prisma `order` record as it is
read and written by `routes/orders.ts`: timestamps are `Option ℕ`
(`null` ↦ `none`). -/
structure Order where
  orderNumber : String
  customerId : String
  userId : String
  total : ℚ
  paymentMethod : String
  cashPaymentDetails : Option String
  isExpress : Bool
  stains : List String
  items : List OrderItem
  status : String
  createdAt : ℕ
  completedAt : Option ℕ
  pickedUpAt : Option ℕ
deriving DecidableEq, Repr

/-- JavaScript `String.prototype.toUpperCase()` restricted to the ASCII
strings the API compares against, mapped over the characters. -/
def jsUpper (s : String) : String := ⟨s.data.map Char.toUpper⟩

/-- The `validStatuses` array of `router.patch('/:id/status')`
(orders.ts line 261). -/
def validStatuses : List String :=
  ["TODO", "WASHERS", "WAITING", "DRYERS", "COMPLETED", "READY", "PICKED_UP"]

/-- The error outcomes of `router.patch('/:id/status')`:
`missingStatus` is the `'Status is required'` rejection for a falsy `status`
field, `invalidStatus` the `'Invalid status. Must be one of: …'` rejection. -/
inductive StatusError where
  | missingStatus
  | invalidStatus
deriving DecidableEq, Repr

/-- HTTP status code attached to each `StatusError` by the route. -/
def StatusError.http : StatusError → ℕ
  | .missingStatus => 400
  | .invalidStatus => 400

/-- Embedding of `router.patch('/:id/status')` acting on one order `o` at
server time `now` (orders.ts lines 252–301): a falsy (empty) `status` is
rejected, the status is upper-cased and checked against `validStatuses`,
and `updateData` carries `status`, plus `completedAt = now` when the target
is COMPLETED, else `pickedUpAt = now` when the target is PICKED_UP. -/
def updateOrderStatus (o : Order) (status : String) (now : ℕ) :
    Except StatusError Order :=
  if status = "" then
    .error .missingStatus
  else
    let upperStatus := jsUpper status
    if validStatuses.contains upperStatus = false then
      .error .invalidStatus
    else if upperStatus = "COMPLETED" then
      .ok { o with status := upperStatus, completedAt := some now }
    else if upperStatus = "PICKED_UP" then
      .ok { o with status := upperStatus, pickedUpAt := some now }
    else
      .ok { o with status := upperStatus }

/-- One status-update request applied to one stored order; a rejected
request leaves the stored order unchanged. -/
def statusStep (o : Order) (r : String × ℕ) : Order :=
  match updateOrderStatus o r.1 r.2 with
  | .ok o' => o'
  | .error _ => o

/-- A sequence of status-update requests `(status, now)` applied to one
order. -/
def applyStatusSeq (o : Order) (reqs : List (String × ℕ)) : Order :=
  reqs.foldl statusStep o

/-- The value a timestamp field holds after a request sequence when every
request targeting `target` overwrites it: the time of the last such request,
or the initial value when there is none. -/
def lastTargetTime (target : String) (init : Option ℕ)
    (reqs : List (String × ℕ)) : Option ℕ :=
  reqs.foldl (fun acc r => if jsUpper r.1 = target then some r.2 else acc) init

/-- A sample stored order in status TODO with both timestamps unset. -/
def sampleOrder : Order :=
  { orderNumber := "LOS-000001", customerId := "c1", userId := "u1",
    total := 50, paymentMethod := "CASH", cashPaymentDetails := none,
    isExpress := false, stains := [], items := [], status := "TODO",
    createdAt := 0, completedAt := none, pickedUpAt := none }

lemma statusStep_completedAt (o : Order) (r : String × ℕ) :
    (statusStep o r).completedAt =
      if jsUpper r.1 = "COMPLETED" then some r.2 else o.completedAt := by
  rcases r with ⟨s, t⟩
  unfold statusStep updateOrderStatus
  by_cases hs : s = ""
  · subst hs
    simp [jsUpper]
  · simp only [if_neg hs]
    by_cases hc : validStatuses.contains (jsUpper s) = false
    · have hmem : jsUpper s ∉ validStatuses := by simpa using hc
      have hne : jsUpper s ≠ "COMPLETED" := by
        intro he
        rw [he] at hmem
        exact hmem (by decide)
      simp [hc, hmem, hne]
    · have hmem : jsUpper s ∈ validStatuses := by simpa using hc
      have hmC : ("COMPLETED" : String) ∈ validStatuses := by decide
      have hmP : ("PICKED_UP" : String) ∈ validStatuses := by decide
      by_cases hC : jsUpper s = "COMPLETED"
      · simp [hc, hmem, hC, hmC]
      · by_cases hP : jsUpper s = "PICKED_UP"
        · simp [hc, hmem, hC, hP, hmP]
        · simp [hc, hmem, hC, hP]

lemma statusStep_pickedUpAt (o : Order) (r : String × ℕ) :
    (statusStep o r).pickedUpAt =
      if jsUpper r.1 = "PICKED_UP" then some r.2 else o.pickedUpAt := by
  rcases r with ⟨s, t⟩
  unfold statusStep updateOrderStatus
  by_cases hs : s = ""
  · subst hs
    simp [jsUpper]
  · simp only [if_neg hs]
    by_cases hc : validStatuses.contains (jsUpper s) = false
    · have hmem : jsUpper s ∉ validStatuses := by simpa using hc
      have hne : jsUpper s ≠ "PICKED_UP" := by
        intro he
        rw [he] at hmem
        exact hmem (by decide)
      simp [hc, hmem, hne]
    · have hmem : jsUpper s ∈ validStatuses := by simpa using hc
      have hmC : ("COMPLETED" : String) ∈ validStatuses := by decide
      have hmP : ("PICKED_UP" : String) ∈ validStatuses := by decide
      by_cases hC : jsUpper s = "COMPLETED"
      · have hne : jsUpper s ≠ "PICKED_UP" := by
          rw [hC]
          decide
        simp [hc, hmem, hC, hne, hmC]
      · by_cases hP : jsUpper s = "PICKED_UP"
        · simp [hc, hmem, hC, hP, hmP]
        · simp [hc, hmem, hC, hP]

/-- Claim C1, amended: across any sequence of transition calls,
`completedAt` holds the time of the *last* transition whose target was
COMPLETED (each such call overwrites it), and is the initial value — in
particular `null` — as long as no transition targeted COMPLETED;
`pickedUpAt` behaves the same way with respect to PICKED_UP. -/
theorem timestamps_last_write_wins (o : Order) (reqs : List (String × ℕ)) :
    (applyStatusSeq o reqs).completedAt =
      lastTargetTime "COMPLETED" o.completedAt reqs ∧
    (applyStatusSeq o reqs).pickedUpAt =
      lastTargetTime "PICKED_UP" o.pickedUpAt reqs := by
  induction reqs generalizing o with
  | nil => exact ⟨rfl, rfl⟩
  | cons r rs ih =>
    obtain ⟨ih1, ih2⟩ := ih (statusStep o r)
    constructor
    · calc (applyStatusSeq o (r :: rs)).completedAt
          = (applyStatusSeq (statusStep o r) rs).completedAt := by
            simp [applyStatusSeq]
      _ = lastTargetTime "COMPLETED" (statusStep o r).completedAt rs := ih1
      _ = lastTargetTime "COMPLETED" o.completedAt (r :: rs) := by
            rw [statusStep_completedAt]
            simp [lastTargetTime]
    · calc (applyStatusSeq o (r :: rs)).pickedUpAt
          = (applyStatusSeq (statusStep o r) rs).pickedUpAt := by
            simp [applyStatusSeq]
      _ = lastTargetTime "PICKED_UP" (statusStep o r).pickedUpAt rs := ih2
      _ = lastTargetTime "PICKED_UP" o.pickedUpAt (r :: rs) := by
            rw [statusStep_pickedUpAt]
            simp [lastTargetTime]

/-- Claim C1, counterexample: starting from an order whose `completedAt` is
null, a first transition to COMPLETED at time 5 sets `completedAt = 5`, but
a repeated transition to COMPLETED at time 9 *changes* it to 9 — the route
overwrites the timestamp instead of leaving it unchanged, refuting the
idempotent set-once behaviour the claim states. -/
theorem completedAt_overwritten_on_second_completed :
    sampleOrder.completedAt = none ∧
    (applyStatusSeq sampleOrder [("completed", 5)]).completedAt = some 5 ∧
    (applyStatusSeq sampleOrder
      [("completed", 5), ("completed", 9)]).completedAt = some 9 ∧
    (some 9 : Option ℕ) ≠ some 5 :=
  ⟨rfl, by decide, by decide, by decide⟩

/-- Claim C10: a successful status update writes only `status`, plus
`completedAt` exactly when the (upper-cased) target is COMPLETED and
`pickedUpAt` exactly when it is PICKED_UP; every other stored field of the
order is unchanged. -/
theorem status_update_frame (o : Order) (s : String) (now : ℕ) (o' : Order)
    (h : updateOrderStatus o s now = .ok o') :
    o'.orderNumber = o.orderNumber ∧ o'.customerId = o.customerId ∧
    o'.userId = o.userId ∧ o'.total = o.total ∧
    o'.paymentMethod = o.paymentMethod ∧
    o'.cashPaymentDetails = o.cashPaymentDetails ∧
    o'.isExpress = o.isExpress ∧ o'.stains = o.stains ∧
    o'.items = o.items ∧ o'.createdAt = o.createdAt ∧
    o'.status = jsUpper s ∧
    o'.completedAt =
      (if jsUpper s = "COMPLETED" then some now else o.completedAt) ∧
    o'.pickedUpAt =
      (if jsUpper s = "PICKED_UP" then some now else o.pickedUpAt) := by
  simp only [updateOrderStatus] at h
  by_cases hs : s = ""
  · rw [if_pos hs] at h
    exact absurd h (by simp)
  · rw [if_neg hs] at h
    by_cases hc : validStatuses.contains (jsUpper s) = false
    · rw [if_pos hc] at h
      exact absurd h (by simp)
    · rw [if_neg hc] at h
      by_cases hC : jsUpper s = "COMPLETED"
      · rw [if_pos hC] at h
        injection h with h2
        subst h2
        simp [hC]
      · rw [if_neg hC] at h
        by_cases hP : jsUpper s = "PICKED_UP"
        · rw [if_pos hP] at h
          injection h with h2
          subst h2
          simp [hC, hP]
        · rw [if_neg hP] at h
          injection h with h2
          subst h2
          simp [hC, hP]

/-- Witness for C10 at a concrete input: updating the sample order to
`"washers"` succeeds and satisfies the frame property. -/
theorem status_update_frame_witness :
    ({ sampleOrder with status := "WASHERS" } : Order).orderNumber
        = sampleOrder.orderNumber ∧
    ({ sampleOrder with status := "WASHERS" } : Order).customerId
        = sampleOrder.customerId ∧
    ({ sampleOrder with status := "WASHERS" } : Order).userId
        = sampleOrder.userId ∧
    ({ sampleOrder with status := "WASHERS" } : Order).total
        = sampleOrder.total ∧
    ({ sampleOrder with status := "WASHERS" } : Order).paymentMethod
        = sampleOrder.paymentMethod ∧
    ({ sampleOrder with status := "WASHERS" } : Order).cashPaymentDetails
        = sampleOrder.cashPaymentDetails ∧
    ({ sampleOrder with status := "WASHERS" } : Order).isExpress
        = sampleOrder.isExpress ∧
    ({ sampleOrder with status := "WASHERS" } : Order).stains
        = sampleOrder.stains ∧
    ({ sampleOrder with status := "WASHERS" } : Order).items
        = sampleOrder.items ∧
    ({ sampleOrder with status := "WASHERS" } : Order).createdAt
        = sampleOrder.createdAt ∧
    ({ sampleOrder with status := "WASHERS" } : Order).status
        = jsUpper "washers" ∧
    ({ sampleOrder with status := "WASHERS" } : Order).completedAt
        = (if jsUpper "washers" = "COMPLETED" then some 7
           else sampleOrder.completedAt) ∧
    ({ sampleOrder with status := "WASHERS" } : Order).pickedUpAt
        = (if jsUpper "washers" = "PICKED_UP" then some 7
           else sampleOrder.pickedUpAt) :=
  status_update_frame sampleOrder "washers" 7
    { sampleOrder with status := "WASHERS" } rfl

/-- Claim C3, amended: for every order and every *non-empty* requested
target status string, the transition rejects with `InvalidStatus`
(HTTP 400) if and only if the upper-cased target is not one of the seven
canonical values, and every one of the seven values is accepted regardless
of the order's current status (matching case-insensitively, via
upper-casing). -/
theorem invalidStatus_iff_unknown_target (o : Order) (s : String) (now : ℕ)
    (hs : s ≠ "") :
    (updateOrderStatus o s now = .error .invalidStatus ↔
      validStatuses.contains (jsUpper s) = false) ∧
    (validStatuses.contains (jsUpper s) = true →
      ∃ o', updateOrderStatus o s now = Except.ok o' ∧
        o'.status = jsUpper s) ∧
    StatusError.http .invalidStatus = 400 := by
  simp only [updateOrderStatus, if_neg hs]
  by_cases hc : validStatuses.contains (jsUpper s) = false
  · rw [if_pos hc]
    refine ⟨⟨fun _ => hc, fun _ => rfl⟩, fun ht => ?_, rfl⟩
    rw [ht] at hc
    exact absurd hc (by decide)
  · rw [if_neg hc]
    refine ⟨⟨fun he => ?_, fun hf => absurd hf hc⟩, fun _ => ?_, rfl⟩
    · by_cases hC : jsUpper s = "COMPLETED"
      · rw [if_pos hC] at he
        exact absurd he (by simp)
      · rw [if_neg hC] at he
        by_cases hP : jsUpper s = "PICKED_UP"
        · rw [if_pos hP] at he
          exact absurd he (by simp)
        · rw [if_neg hP] at he
          exact absurd he (by simp)
    · by_cases hC : jsUpper s = "COMPLETED"
      · rw [if_pos hC]
        exact ⟨_, rfl, rfl⟩
      · rw [if_neg hC]
        by_cases hP : jsUpper s = "PICKED_UP"
        · rw [if_pos hP]
          exact ⟨_, rfl, rfl⟩
        · rw [if_neg hP]
          exact ⟨_, rfl, rfl⟩

/-- Witness for C3 at a concrete input: the lower-case target
`"dryers"` on the sample order is not rejected as invalid and is accepted
with stored status `DRYERS`. -/
theorem invalidStatus_iff_unknown_target_witness :
    (updateOrderStatus sampleOrder "dryers" 4 = .error .invalidStatus ↔
      validStatuses.contains (jsUpper "dryers") = false) ∧
    (validStatuses.contains (jsUpper "dryers") = true →
      ∃ o', updateOrderStatus sampleOrder "dryers" 4 = Except.ok o' ∧
        o'.status = jsUpper "dryers") ∧
    StatusError.http .invalidStatus = 400 :=
  invalidStatus_iff_unknown_target sampleOrder "dryers" 4 (by decide)

/-- Claim C3, counterexample: the empty target status string is not one of
the seven canonical values, yet the route rejects it with the
`'Status is required'` error, not with `InvalidStatus` — the falsy-status
guard fires first, so the claimed "if and only if" fails at `""`. -/
theorem empty_status_not_invalidStatus :
    updateOrderStatus sampleOrder "" 0 = .error .missingStatus ∧
    validStatuses.contains (jsUpper "") = false ∧
    StatusError.missingStatus ≠ StatusError.invalidStatus :=
  ⟨rfl, by decide, by decide⟩

/-! ### Cash payment calculator (`src/pages/NewOrder.tsx`)

The component state `CashPayment` stores the tendered notes and coins as
denomination → quantity records.  The record keys are the South-African
denominations (all integers: 200, 100, 50, 20, 10 for notes and 5, 2, 1
for coins) and `calculateCashTotal` recovers the numeric denomination with
`parseInt`; the records are modelled as association lists
`List (ℕ × ℤ)` with numeric keys (JavaScript objects preserve insertion
order for these keys; setting an existing key keeps its position,
a new key is appended). -/

/-- One denomination → quantity record. -/
abbrev DenomMap := List (ℕ × ℤ)

/-- JavaScript `{...m, [d]: q}`: replace the value of an existing key in
place, or append a new key at the end. -/
def assocSet (m : DenomMap) (d : ℕ) (q : ℤ) : DenomMap :=
  if m.any (fun e => e.1 = d) then
    m.map (fun e => if e.1 = d then (d, q) else e)
  else
    m ++ [(d, q)]

/-- JavaScript `delete m[d]`. -/
def assocDelete (m : DenomMap) (d : ℕ) : DenomMap :=
  m.filter (fun e => e.1 ≠ d)

/-- Embedding of `calculateCashTotal` (NewOrder.tsx lines 202–212):
`Σ(denomination × quantity)` over the notes record plus the same over the
coins record, each by a left fold starting at 0. -/
def calculateCashTotal (notes coins : DenomMap) : ℤ :=
  let notesTotal := notes.foldl (fun sum e => sum + (e.1 : ℤ) * e.2) 0
  let coinsTotal := coins.foldl (fun sum e => sum + (e.1 : ℤ) * e.2) 0
  notesTotal + coinsTotal

/-- The `CashPayment` component state of NewOrder.tsx. -/
structure CashPayment where
  notes : DenomMap
  coins : DenomMap
  totalPaid : ℤ
  change : ℚ
deriving DecidableEq, Repr

/-- The initial (and reset) cash payment state: empty records, zero paid,
zero change. -/
def emptyCashPayment : CashPayment :=
  { notes := [], coins := [], totalPaid := 0, change := 0 }

/-- JavaScript property access `m[d]` on a denomination record. -/
def assocGet (m : DenomMap) (d : ℕ) : Option ℤ :=
  match m with
  | [] => none
  | e :: rest => if e.1 = d then some e.2 else assocGet rest d

/-- The record rewrite performed by `updateCashDenomination` on the chosen
record: store `[denomination]: Math.max(0, quantity)`, then delete the key
again when `updated[type][denomination] === 0` (lines 217–227). -/
def setAndClean (m : DenomMap) (d : ℕ) (q : ℤ) : DenomMap :=
  let m1 := assocSet m d (max 0 q)
  if assocGet m1 d = some 0 then assocDelete m1 d else m1

/-- Embedding of `updateCashDenomination` (NewOrder.tsx lines 214–240):
the chosen record gets `[denomination]: Math.max(0, quantity)`, a stored
zero quantity is deleted, and `totalPaid` / `change` are recomputed, with
`change = Math.max(0, totalPaid − orderTotal)`.  `isNotes` selects the
`'notes'` record (`true`) or the `'coins'` record; `orderTotal` is the
current `calculateTotal()` of the order being composed. -/
def updateCashDenomination (orderTotal : ℚ) (cp : CashPayment)
    (isNotes : Bool) (d : ℕ) (q : ℤ) : CashPayment :=
  let m2 := setAndClean (if isNotes then cp.notes else cp.coins) d q
  let notes' := if isNotes then m2 else cp.notes
  let coins' := if isNotes then cp.coins else m2
  let totalPaid := calculateCashTotal notes' coins'
  let change := max 0 ((totalPaid : ℚ) - orderTotal)
  { notes := notes', coins := coins', totalPaid := totalPaid,
    change := change }

/-- A sequence of `updateCashDenomination` calls, each `(isNotes,
denomination, quantity)`, applied against a fixed order total. -/
def applyCashSeq (orderTotal : ℚ) (cp : CashPayment)
    (us : List (Bool × ℕ × ℤ)) : CashPayment :=
  us.foldl (fun acc u => updateCashDenomination orderTotal acc u.1 u.2.1 u.2.2)
    cp

/-- The insufficiency check of NewOrder.tsx (lines 340 and 366):
the tender is insufficient when `cashPayment.totalPaid < orderTotal`. -/
def insufficientPayment (cp : CashPayment) (orderTotal : ℚ) : Bool :=
  (cp.totalPaid : ℚ) < orderTotal

/-- The sum `Σ(denomination × quantity)` over one record, written as a
`List.sum`. -/
def denomSum (m : DenomMap) : ℤ :=
  (m.map (fun e => (e.1 : ℤ) * e.2)).sum

lemma foldl_denomSum (m : DenomMap) (init : ℤ) :
    m.foldl (fun sum e => sum + (e.1 : ℤ) * e.2) init = init + denomSum m := by
  induction m generalizing init with
  | nil => simp [denomSum]
  | cons e rest ih =>
    simp only [List.foldl_cons, ih, denomSum, List.map_cons, List.sum_cons]
    ring

lemma calculateCashTotal_eq_sum (notes coins : DenomMap) :
    calculateCashTotal notes coins = denomSum notes + denomSum coins := by
  simp [calculateCashTotal, foldl_denomSum]

/-- The scenario state of claim C2: from the empty breakdown against an
order total of 137.50, tender one R100 note, one R20 note and one R5
coin. -/
def scenarioCash : CashPayment :=
  applyCashSeq (275/2) emptyCashPayment
    [(true, 100, 1), (true, 20, 1), (false, 5, 1)]

/-- Claim C2: after any `updateCashDenomination` call, `totalPaid` is
`Σ(denomination × quantity)` over both stored records, `change` is
`max(0, totalPaid − orderTotal)` (hence never negative); and in the
scenario — order total 137.50, tendered notes {100:1, 20:1} and coins
{5:1} — the state shows `totalPaid = 125`, `change = 0`, and the tender is
flagged insufficient. -/
theorem cash_tender_computation :
    (∀ (orderTotal : ℚ) (cp : CashPayment) (isNotes : Bool) (d : ℕ)
        (q : ℤ),
      (updateCashDenomination orderTotal cp isNotes d q).totalPaid =
        denomSum (updateCashDenomination orderTotal cp isNotes d q).notes +
          denomSum (updateCashDenomination orderTotal cp isNotes d q).coins ∧
      (updateCashDenomination orderTotal cp isNotes d q).change =
        max 0
          (((updateCashDenomination orderTotal cp isNotes d q).totalPaid :
              ℚ) - orderTotal) ∧
      0 ≤ (updateCashDenomination orderTotal cp isNotes d q).change) ∧
    scenarioCash.totalPaid = 125 ∧
    scenarioCash.change = 0 ∧
    insufficientPayment scenarioCash (275/2) = true := by
  have htp : scenarioCash.totalPaid = 125 := rfl
  refine ⟨fun orderTotal cp isNotes d q => ⟨?_, rfl, le_max_left 0 _⟩,
    htp, ?_, ?_⟩
  · simp only [updateCashDenomination]
    exact calculateCashTotal_eq_sum _ _
  · have hch : scenarioCash.change =
        max 0 ((scenarioCash.totalPaid : ℚ) - 275/2) := rfl
    rw [hch, htp]
    norm_num
  · simp only [insufficientPayment, htp]
    norm_num

/-- Witness for C2 at a concrete call: tendering one R100 note against a
137.50 total. -/
theorem cash_tender_computation_witness :
    (updateCashDenomination (275/2) emptyCashPayment true 100 1).totalPaid =
      denomSum
        (updateCashDenomination (275/2) emptyCashPayment true 100 1).notes +
        denomSum
          (updateCashDenomination (275/2) emptyCashPayment true 100
            1).coins ∧
    (updateCashDenomination (275/2) emptyCashPayment true 100 1).change =
      max 0
        (((updateCashDenomination (275/2) emptyCashPayment true 100
            1).totalPaid : ℚ) - 275/2) ∧
    0 ≤ (updateCashDenomination (275/2) emptyCashPayment true 100 1).change :=
  cash_tender_computation.1 (275/2) emptyCashPayment true 100 1

lemma mem_assocSet {m : DenomMap} {d : ℕ} {q : ℤ} {e : ℕ × ℤ}
    (h : e ∈ assocSet m d q) : e = (d, q) ∨ e ∈ m := by
  unfold assocSet at h
  by_cases ha : m.any (fun x => x.1 = d)
  · rw [if_pos ha] at h
    obtain ⟨x, hx, hfx⟩ := List.mem_map.mp h
    by_cases hxd : x.1 = d
    · left
      rw [← hfx, if_pos hxd]
    · right
      rw [← hfx, if_neg hxd]
      exact hx
  · rw [if_neg ha] at h
    rcases List.mem_append.mp h with h1 | h2
    · exact Or.inr h1
    · exact Or.inl (by simpa using h2)

lemma assocGet_map_set (m : DenomMap) (d : ℕ) (q : ℤ)
    (ha : m.any (fun x => x.1 = d) = true) :
    assocGet (m.map (fun e => if e.1 = d then (d, q) else e)) d = some q := by
  induction m with
  | nil => simp at ha
  | cons e rest ih =>
    by_cases hed : e.1 = d
    · simp [assocGet, hed]
    · have ha' : rest.any (fun x => x.1 = d) = true := by
        simpa [List.any_cons, hed] using ha
      simp [assocGet, hed, ih ha']

lemma assocGet_append_single (m : DenomMap) (d : ℕ) (q : ℤ)
    (ha : m.any (fun x => x.1 = d) = false) :
    assocGet (m ++ [(d, q)]) d = some q := by
  induction m with
  | nil => simp [assocGet]
  | cons e rest ih =>
    have hed : ¬ e.1 = d := by
      intro hh
      simp [List.any_cons, hh] at ha
    have ha' : rest.any (fun x => x.1 = d) = false := by
      simpa [List.any_cons, hed] using ha
    simp [assocGet, hed, ih ha']

lemma assocGet_assocSet (m : DenomMap) (d : ℕ) (q : ℤ) :
    assocGet (assocSet m d q) d = some q := by
  unfold assocSet
  by_cases ha : m.any (fun x => x.1 = d)
  · rw [if_pos ha]
    exact assocGet_map_set m d q ha
  · rw [if_neg ha]
    exact assocGet_append_single m d q (Bool.eq_false_iff.mpr ha)

lemma setAndClean_pos {m : DenomMap} (h : ∀ e ∈ m, 1 ≤ e.2) (d : ℕ)
    (q : ℤ) : ∀ e ∈ setAndClean m d q, 1 ≤ e.2 := by
  intro e he
  simp only [setAndClean] at he
  rw [assocGet_assocSet] at he
  by_cases hq : (max 0 q : ℤ) = 0
  · rw [if_pos (by rw [hq])] at he
    obtain ⟨hmem, hne⟩ := List.mem_filter.mp he
    rcases mem_assocSet hmem with rfl | hm
    · simp at hne
    · exact h e hm
  · rw [if_neg (by simpa using hq)] at he
    rcases mem_assocSet he with rfl | hm
    · have h0 : (0 : ℤ) ≤ max 0 q := le_max_left 0 q
      omega
    · exact h e hm

lemma applyCashSeq_pos (orderTotal : ℚ) (us : List (Bool × ℕ × ℤ)) :
    ∀ cp : CashPayment, (∀ e ∈ cp.notes, 1 ≤ e.2) →
      (∀ e ∈ cp.coins, 1 ≤ e.2) →
      (∀ e ∈ (applyCashSeq orderTotal cp us).notes, 1 ≤ e.2) ∧
      (∀ e ∈ (applyCashSeq orderTotal cp us).coins, 1 ≤ e.2) := by
  induction us with
  | nil => exact fun cp h1 h2 => ⟨h1, h2⟩
  | cons u rest ih =>
    intro cp h1 h2
    rcases u with ⟨b, d, q⟩
    have hstep :
        applyCashSeq orderTotal cp ((b, d, q) :: rest) =
          applyCashSeq orderTotal
            (updateCashDenomination orderTotal cp b d q) rest := by
      simp [applyCashSeq]
    rw [hstep]
    cases b
    · exact ih _ (by simpa [updateCashDenomination] using h1)
        (by simpa [updateCashDenomination] using setAndClean_pos h2 d q)
    · exact ih _ (by simpa [updateCashDenomination] using setAndClean_pos h1 d q)
        (by simpa [updateCashDenomination] using h2)

/-- Claim C9: starting from the empty cash breakdown, after any sequence
of `updateCashDenomination` calls every denomination still present in the
stored notes and coins records has quantity at least 1 — a zero (or
negative, clamped-to-zero) quantity removes the entry. -/
theorem stored_denominations_positive (orderTotal : ℚ)
    (us : List (Bool × ℕ × ℤ)) :
    (∀ e ∈ (applyCashSeq orderTotal emptyCashPayment us).notes, 1 ≤ e.2) ∧
    (∀ e ∈ (applyCashSeq orderTotal emptyCashPayment us).coins, 1 ≤ e.2) :=
  applyCashSeq_pos orderTotal us emptyCashPayment (by simp [emptyCashPayment])
    (by simp [emptyCashPayment])

/-- Witness for C9 at a concrete input: after tendering two R5 notes, the
stored entry `(5, 2)` indeed has quantity at least 1. -/
theorem stored_denominations_positive_witness :
    (1 : ℤ) ≤ (((5 : ℕ), (2 : ℤ)) : ℕ × ℤ).2 :=
  (stored_denominations_positive 10 [(true, 5, 2)]).1 (5, 2) (by decide)

/-! ### Order creation (`router.post('/')` of orders.ts)

Request money amounts are rationals; `number.toFixed(2)` followed by
`parseFloat` is decimal rounding to 2 places (round half towards +∞, the
tie rule of `toFixed`), and `parseInt(q, 10)` on a validated quantity
`q ≥ 1` is truncation to an integer.  `req.body` destructuring is modelled
with `Option` fields (`undefined` ↦ `none`); JavaScript falsiness of a
present value (empty string, zero) is checked explicitly where the code
uses `!x`. -/

/-- `parseFloat(x.toFixed(2))`: round to 2 decimal places.  `toFixed`
picks the integer `n` minimizing `|n / 100 − x|` and takes the larger `n`
on a tie, which is `⌊x·100 + 1/2⌋`; `Rat.floor` keeps the definition
kernel-computable. -/
def round2 (x : ℚ) : ℚ := (((x * 100 + 1/2).floor : ℤ) : ℚ) / 100

lemma ratFloor_eq_intFloor (q : ℚ) : q.floor = ⌊q⌋ :=
  (Rat.floor_def' q).trans Rat.floor_def.symm

/-- JavaScript `String.prototype.trim()`: strip whitespace from both
ends. -/
def jsTrim (s : String) : String :=
  ⟨((s.data.dropWhile Char.isWhitespace).reverse.dropWhile
      Char.isWhitespace).reverse⟩

/-- JavaScript `String.prototype.padStart(width, c)`. -/
def padStart (s : String) (width : ℕ) (c : Char) : String :=
  ⟨List.replicate (width - s.length) c ++ s.data⟩

/-- The order-number generation of orders.ts line 47:
`` `LOS-${String(orderCount + 1).padStart(6, '0')}` ``. -/
def genOrderNumber (orderCount : ℕ) : String :=
  "LOS-" ++ padStart (toString (orderCount + 1)) 6 '0'

/-- An item of the creation request body, before validation and
normalization.  `price` and `quantity` are JavaScript numbers; the
`typeof === 'number'` checks of line 51 always hold in this typed
embedding. -/
structure OrderItemInput where
  name : String
  price : ℚ
  quantity : ℚ
  notes : Option String
deriving DecidableEq, Repr

/-- The destructured `req.body` of `router.post('/')` (orders.ts lines
11–19).  A missing field is `none`; `isExpress` defaults to `false` and
`stains` to `[]` in the destructuring itself, so they are plain values. -/
structure CreateOrderRequest where
  customerId : Option String
  items : Option (List OrderItemInput)
  total : Option ℚ
  paymentMethod : Option String
  cashPaymentDetails : Option String
  isExpress : Bool
  stains : List String
deriving DecidableEq, Repr

/-- The rejection outcomes of `router.post('/')`.  `invalidItem` covers the
two thrown `'Invalid item data: …'` messages, which the catch block turns
into a 400 response. -/
inductive CreateError where
  | missingField
  | invalidPaymentMethod
  | customerNotFound
  | invalidItem
  | totalMismatch
deriving DecidableEq, Repr

/-- HTTP status code the route attaches to each rejection: the customer
lookup failure responds with `res.status(404)` (line 42), every other
validation failure with 400. -/
def CreateError.http : CreateError → ℕ
  | .missingField => 400
  | .invalidPaymentMethod => 400
  | .customerNotFound => 404
  | .invalidItem => 400
  | .totalMismatch => 400

/-- The `validPaymentMethods` array of orders.ts line 31. -/
def validPaymentMethods : List String := ["CASH", "CARD", "ON_COLLECTION"]

/-- `item.notes ? item.notes.trim() : null` (line 63): an absent or empty
(falsy) notes string becomes `null`. -/
def normNotes : Option String → Option String
  | none => none
  | some t => if t = "" then none else some (jsTrim t)

/-- The normalized stored item built on lines 59–64: trimmed name, price
rounded to 2 decimals, quantity truncated to an integer. -/
def normItem (i : OrderItemInput) : OrderItem :=
  { name := jsTrim i.name, price := round2 i.price,
    quantity := ⌊i.quantity⌋, notes := normNotes i.notes }

/-- The `items.map(...)` validation of lines 50–65: walk the items in
order; throw `invalidItem` at the first item with a falsy (empty) name, a
negative price or a quantity below 1, otherwise collect the normalized
items. -/
def validateItems : List OrderItemInput → Except CreateError (List OrderItem)
  | [] => .ok []
  | i :: rest =>
    if i.name = "" then .error .invalidItem
    else if i.price < 0 ∨ i.quantity < 1 then .error .invalidItem
    else
      match validateItems rest with
      | .ok out => .ok (normItem i :: out)
      | .error e => .error e

/-- `orderItems.reduce((sum, item) => sum + item.price * item.quantity, 0)`
(line 68). -/
def calcItemsTotal (its : List OrderItem) : ℚ :=
  its.foldl (fun sum it => sum + it.price * (it.quantity : ℚ)) 0

/-- `cashPaymentDetails || null` (line 87): a falsy payload becomes
`null`. -/
def normCashDetails : Option String → Option String
  | none => none
  | some c => if c = "" then none else some c

/-- Embedding of `router.post('/')` (orders.ts lines 9–141).  `customers`
is the set of existing customer ids (`prisma.customer.findUnique`),
`orderCount` the current `prisma.order.count()`, `userId` the
authenticated user and `now` the server clock.  The checks run in source
order: required-fields (line 24, JavaScript falsiness), payment method
(line 32), customer existence (line 41), per-item validation (lines
50–65), total comparison (line 71); on success the stored order row of
lines 80–113 is returned (its status is the schema default TODO). -/
def createOrder (customers : List String) (orderCount : ℕ) (userId : String)
    (now : ℕ) (req : CreateOrderRequest) : Except CreateError Order :=
  match req.customerId, req.items, req.total, req.paymentMethod with
  | some cid, some items, some total, some pm =>
    if cid = "" ∨ items = [] ∨ total = 0 ∨ pm = "" then
      .error .missingField
    else if validPaymentMethods.contains (jsUpper pm) = false then
      .error .invalidPaymentMethod
    else if customers.contains cid = false then
      .error .customerNotFound
    else
      match validateItems items with
      | .error e => .error e
      | .ok orderItems =>
        let calculatedTotal := calcItemsTotal orderItems
        let receivedTotal := round2 total
        if 1/100 < |calculatedTotal - receivedTotal| then
          .error .totalMismatch
        else
          .ok { orderNumber := genOrderNumber orderCount,
                customerId := cid, userId := userId,
                total := receivedTotal, paymentMethod := jsUpper pm,
                cashPaymentDetails := normCashDetails req.cashPaymentDetails,
                isExpress := req.isExpress,
                stains := req.stains.filter (fun st => jsTrim st ≠ ""),
                items := orderItems, status := "TODO", createdAt := now,
                completedAt := none, pickedUpAt := none }
  | _, _, _, _ => .error .missingField

lemma validateItems_error {items : List OrderItemInput} {e : CreateError}
    (h : validateItems items = .error e) : e = .invalidItem := by
  induction items with
  | nil => simp [validateItems] at h
  | cons i rest ih =>
    simp only [validateItems] at h
    by_cases h1 : i.name = ""
    · rw [if_pos h1] at h
      exact (Except.error.injEq _ _).mp h.symm
    · rw [if_neg h1] at h
      by_cases h2 : i.price < 0 ∨ i.quantity < 1
      · rw [if_pos h2] at h
        exact (Except.error.injEq _ _).mp h.symm
      · rw [if_neg h2] at h
        cases hv : validateItems rest with
        | ok out => rw [hv] at h; simp at h
        | error e2 =>
          rw [hv] at h
          simp only [Except.error.injEq] at h
          subst h
          exact ih hv

lemma validateItems_ok_of_valid (items : List OrderItemInput)
    (h : ∀ i ∈ items, i.name ≠ "" ∧ 0 ≤ i.price ∧ 1 ≤ i.quantity) :
    validateItems items = .ok (items.map normItem) := by
  induction items with
  | nil => rfl
  | cons i rest ih =>
    obtain ⟨h1, h2, h3⟩ := h i (List.mem_cons_self i rest)
    have hrest := ih fun j hj => h j (List.mem_cons_of_mem i hj)
    simp only [validateItems, if_neg h1]
    rw [if_neg (by push_neg; exact ⟨h2, h3⟩), hrest]
    rfl

lemma validateItems_error_of_bad (items : List OrderItemInput)
    (h : ∃ i ∈ items, i.name = "" ∨ i.price < 0 ∨ i.quantity < 1) :
    validateItems items = .error .invalidItem := by
  induction items with
  | nil => simp at h
  | cons i rest ih =>
    simp only [validateItems]
    by_cases h1 : i.name = ""
    · rw [if_pos h1]
    · rw [if_neg h1]
      by_cases h2 : i.price < 0 ∨ i.quantity < 1
      · rw [if_pos h2]
      · rw [if_neg h2]
        obtain ⟨j, hj, hbad⟩ := h
        rcases List.mem_cons.mp hj with rfl | hj'
        · exact absurd hbad (by push_neg at h2 ⊢; exact ⟨h1, h2⟩)
        · rw [ih ⟨j, hj', hbad⟩]

/-- Claim C8: when the count of existing orders is `orderCount`, a
successfully created order is assigned
`orderNumber = "LOS-" + zero_padded(orderCount + 1, width 6)`. -/
theorem orderNumber_assignment (customers : List String) (orderCount : ℕ)
    (userId : String) (now : ℕ) (req : CreateOrderRequest) (o : Order)
    (h : createOrder customers orderCount userId now req = .ok o) :
    o.orderNumber = "LOS-" ++ padStart (toString (orderCount + 1)) 6 '0' := by
  simp only [createOrder] at h
  split at h
  · split at h
    · exact absurd h (by simp)
    · split at h
      · exact absurd h (by simp)
      · split at h
        · exact absurd h (by simp)
        · split at h
          · exact absurd h (by simp)
          · split at h
            · exact absurd h (by simp)
            · injection h with h2
              subst h2
              rfl
  · exact absurd h (by simp)

/-- The Shirt request of the C4 scenario: one item (name Shirt, price
9.00, quantity 2) with the given total, cash payment, for customer
`"c1"`. -/
def shirtOrderRequest (total : ℚ) : CreateOrderRequest :=
  { customerId := some "c1", items := some [⟨"Shirt", 9, 2, none⟩],
    total := some total, paymentMethod := some "cash",
    cashPaymentDetails := none, isExpress := false, stains := [] }

/-- The stored order produced by `shirtOrderRequest 18` against customer
set `["c1"]`, order count 0, user `"u1"`, time 3. -/
def shirtCreatedOrder : Order :=
  { orderNumber := "LOS-000001", customerId := "c1", userId := "u1",
    total := 18, paymentMethod := "CASH", cashPaymentDetails := none,
    isExpress := false, stains := [], items := [⟨"Shirt", 9, 2, none⟩],
    status := "TODO", createdAt := 3, completedAt := none,
    pickedUpAt := none }

/-- Witness for C8 at a concrete input: with 0 existing orders, the
created Shirt order gets orderNumber `LOS-000001`. -/
theorem orderNumber_assignment_witness :
    shirtCreatedOrder.orderNumber =
      "LOS-" ++ padStart (toString (0 + 1)) 6 '0' :=
  orderNumber_assignment ["c1"] 0 "u1" 3 (shirtOrderRequest 18)
    shirtCreatedOrder (by with_unfolding_all rfl)

/-- Claim C6, amended: a creation request that passes the required-field
and payment-method checks but whose `customerId` does not resolve to an
existing customer is rejected with `CustomerNotFound`, surfaced as HTTP
**404** (`res.status(404)`, orders.ts line 42), not as a 400 validation
failure. -/
theorem customerNotFound_http404 (customers : List String)
    (orderCount : ℕ) (userId : String) (now : ℕ) (cid : String)
    (items : List OrderItemInput) (total : ℚ) (pm : String)
    (cpd : Option String) (ie : Bool) (st : List String)
    (hcid : cid ≠ "") (hitems : items ≠ []) (htotal : total ≠ 0)
    (hpm : pm ≠ "")
    (hpmv : validPaymentMethods.contains (jsUpper pm) = true)
    (hnc : customers.contains cid = false) :
    createOrder customers orderCount userId now
      ⟨some cid, some items, some total, some pm, cpd, ie, st⟩ =
        .error .customerNotFound ∧
    CreateError.http .customerNotFound = 404 := by
  refine ⟨?_, rfl⟩
  simp only [createOrder]
  rw [if_neg (by simp [hcid, hitems, htotal, hpm]),
    if_neg (by rw [hpmv]; simp), if_pos hnc]

/-- The Shirt request with an unknown customer id. -/
def ghostCustomerRequest : CreateOrderRequest :=
  { customerId := some "ghost", items := some [⟨"Shirt", 9, 2, none⟩],
    total := some 18, paymentMethod := some "CASH",
    cashPaymentDetails := none, isExpress := false, stains := [] }

/-- Witness for C6 at a concrete input: customer `"ghost"` against an
empty customer set. -/
theorem customerNotFound_http404_witness :
    createOrder [] 0 "u1" 0
      ⟨some "ghost", some [⟨"Shirt", 9, 2, none⟩], some 18, some "CASH",
        none, false, []⟩ = .error .customerNotFound ∧
    CreateError.http .customerNotFound = 404 :=
  customerNotFound_http404 [] 0 "u1" 0 "ghost" [⟨"Shirt", 9, 2, none⟩]
    18 "CASH" none false [] (by decide) (by simp) (by norm_num) (by decide)
    (by decide) (by decide)

/-- Claim C6, counterexample: the unresolved-customer rejection carries
HTTP status 404, not the HTTP 400 the claim states. -/
theorem customerNotFound_is_404_not_400 :
    createOrder [] 0 "u1" 0 ghostCustomerRequest =
      .error .customerNotFound ∧
    CreateError.http .customerNotFound = 404 ∧ (404 : ℕ) ≠ 400 :=
  ⟨by with_unfolding_all rfl, rfl, by decide⟩

/-- Claim C7, amended: a creation request that passes the required-field,
payment-method and customer-existence checks and contains an item with an
empty name, a negative price, or a quantity below 1 is rejected with
`InvalidItem` (HTTP 400) and no order is created; when one of the earlier
checks fails, that check's rejection (e.g. `CustomerNotFound`, HTTP 404)
takes precedence. -/
theorem invalidItem_rejection (customers : List String) (orderCount : ℕ)
    (userId : String) (now : ℕ) (cid : String)
    (items : List OrderItemInput) (total : ℚ) (pm : String)
    (cpd : Option String) (ie : Bool) (st : List String)
    (hcid : cid ≠ "") (hitems : items ≠ []) (htotal : total ≠ 0)
    (hpm : pm ≠ "")
    (hpmv : validPaymentMethods.contains (jsUpper pm) = true)
    (hcust : customers.contains cid = true)
    (hbad : ∃ i ∈ items, i.name = "" ∨ i.price < 0 ∨ i.quantity < 1) :
    createOrder customers orderCount userId now
      ⟨some cid, some items, some total, some pm, cpd, ie, st⟩ =
        .error .invalidItem ∧
    CreateError.http .invalidItem = 400 := by
  refine ⟨?_, rfl⟩
  simp only [createOrder]
  rw [if_neg (by simp [hcid, hitems, htotal, hpm]),
    if_neg (by rw [hpmv]; simp), if_neg (by rw [hcust]; simp),
    validateItems_error_of_bad items hbad]

/-- Witness for C7 at a concrete input: an empty item name on an
otherwise valid request for existing customer `"c1"`. -/
theorem invalidItem_rejection_witness :
    createOrder ["c1"] 0 "u1" 0
      ⟨some "c1", some [⟨"", 5, 1, none⟩], some 5, some "CASH", none,
        false, []⟩ = .error .invalidItem ∧
    CreateError.http .invalidItem = 400 :=
  invalidItem_rejection ["c1"] 0 "u1" 0 "c1" [⟨"", 5, 1, none⟩] 5 "CASH"
    none false [] (by decide) (by simp) (by norm_num) (by decide)
    (by decide) (by decide) ⟨⟨"", 5, 1, none⟩, by simp, Or.inl rfl⟩

/-- A request with an unknown customer id *and* an invalid (empty-name)
item. -/
def badItemGhostRequest : CreateOrderRequest :=
  { customerId := some "ghost", items := some [⟨"", 5, 1, none⟩],
    total := some 5, paymentMethod := some "CASH",
    cashPaymentDetails := none, isExpress := false, stains := [] }

/-- Claim C7, counterexample: a request containing an item with an empty
name is rejected with `CustomerNotFound` (HTTP 404) when its customer id
does not resolve — the customer check precedes item validation, so the
rejection is neither `InvalidItem` nor HTTP 400. -/
theorem invalidItem_preempted_by_customer_check :
    createOrder [] 0 "u1" 0 badItemGhostRequest =
      .error .customerNotFound ∧
    badItemGhostRequest.items = some [⟨"", 5, 1, none⟩] ∧
    (⟨"", 5, 1, none⟩ : OrderItemInput).name = "" ∧
    CreateError.customerNotFound ≠ CreateError.invalidItem ∧
    CreateError.http .customerNotFound = 404 ∧ (404 : ℕ) ≠ 400 :=
  ⟨by with_unfolding_all rfl, rfl, rfl, by decide, rfl, by decide⟩

/-- Claim C5, amended: order creation rejects with `MissingField` if and
only if one of customerId, items, total, paymentMethod is absent **or
JavaScript-falsy**: an empty customerId or paymentMethod string, an empty
items list, or — notably — a total of 0 also fire the `!x` checks of
orders.ts line 24. -/
theorem missingField_iff_falsy (customers : List String) (orderCount : ℕ)
    (userId : String) (now : ℕ) (req : CreateOrderRequest) :
    (createOrder customers orderCount userId now req =
      .error .missingField) ↔
    (req.customerId = none ∨ req.customerId = some "" ∨
     req.items = none ∨ req.items = some [] ∨
     req.total = none ∨ req.total = some 0 ∨
     req.paymentMethod = none ∨ req.paymentMethod = some "") := by
  rcases req with ⟨cid, items, total, pm, cpd, ie, st⟩
  cases cid with
  | none => simp [createOrder]
  | some c =>
  cases items with
  | none => simp [createOrder]
  | some its =>
  cases total with
  | none => simp [createOrder]
  | some t =>
  cases pm with
  | none => simp [createOrder]
  | some p =>
  simp only [createOrder]
  by_cases hcond : c = "" ∨ its = [] ∨ t = 0 ∨ p = ""
  · rw [if_pos hcond]
    constructor
    · intro _
      rcases hcond with h | h | h | h
      · exact Or.inr (Or.inl (by rw [h]))
      · exact Or.inr (Or.inr (Or.inr (Or.inl (by rw [h]))))
      · exact Or.inr (Or.inr (Or.inr (Or.inr (Or.inr (Or.inl (by rw [h]))))))
      · exact Or.inr (Or.inr (Or.inr (Or.inr (Or.inr (Or.inr (Or.inr
          (by rw [h])))))))
    · intro _
      rfl
  · rw [if_neg hcond]
    push_neg at hcond
    obtain ⟨hc, hi, ht, hp⟩ := hcond
    constructor
    · intro h
      exfalso
      split at h
      · simp at h
      · split at h
        · simp at h
        · split at h
          · next e hv =>
              simp only [Except.error.injEq] at h
              subst h
              exact absurd (validateItems_error hv) (by decide)
          · split at h
            · simp at h
            · simp at h
    · intro hR
      rcases hR with h | h | h | h | h | h | h | h <;> simp_all

/-- The all-fields-present request with total 0 that nevertheless fires
the required-fields rejection. -/
def zeroTotalRequest : CreateOrderRequest :=
  { customerId := some "c1", items := some [⟨"Shirt", 9, 2, none⟩],
    total := some 0, paymentMethod := some "CASH",
    cashPaymentDetails := none, isExpress := false, stains := [] }

/-- Claim C5, counterexample: a request in which all four required fields
are present (items non-empty) but `total = 0` is still rejected with
`MissingField`, because `!total` is true for the falsy number 0. -/
theorem zero_total_fires_missingField :
    createOrder ["c1"] 0 "u1" 0 zeroTotalRequest = .error .missingField ∧
    zeroTotalRequest.customerId = some "c1" ∧
    zeroTotalRequest.items = some [⟨"Shirt", 9, 2, none⟩] ∧
    zeroTotalRequest.total = some 0 ∧
    zeroTotalRequest.paymentMethod = some "CASH" :=
  ⟨by with_unfolding_all rfl, rfl, rfl, rfl, rfl⟩

/-- Claim C4, amended: for requests that pass the required-field,
payment-method, customer and per-item checks, creation rejects with
`TotalMismatch` if and only if the absolute difference between the sum of
**stored** item values — price rounded to 2 decimals, quantity truncated
to an integer — and the total **rounded to 2 decimals** exceeds 0.01; the
Shirt scenario (9.00 × 2) fails with total 20.00 and succeeds with total
18.00. -/
theorem totalMismatch_vs_rounded_diff :
    (∀ (customers : List String) (orderCount : ℕ) (userId : String)
        (now : ℕ) (cid : String) (items : List OrderItemInput) (total : ℚ)
        (pm : String) (cpd : Option String) (ie : Bool)
        (st : List String),
      cid ≠ "" → items ≠ [] → total ≠ 0 → pm ≠ "" →
      validPaymentMethods.contains (jsUpper pm) = true →
      customers.contains cid = true →
      (∀ i ∈ items, i.name ≠ "" ∧ 0 ≤ i.price ∧ 1 ≤ i.quantity) →
      (createOrder customers orderCount userId now
          ⟨some cid, some items, some total, some pm, cpd, ie, st⟩ =
        .error .totalMismatch ↔
        1/100 < |calcItemsTotal (items.map normItem) - round2 total|)) ∧
    createOrder ["c1"] 0 "u1" 3 (shirtOrderRequest 20) =
      .error .totalMismatch ∧
    (∃ o, createOrder ["c1"] 0 "u1" 3 (shirtOrderRequest 18) = .ok o) := by
  refine ⟨?_, by with_unfolding_all rfl,
    ⟨shirtCreatedOrder, by with_unfolding_all rfl⟩⟩
  intro customers orderCount userId now cid items total pm cpd ie st
    hcid hitems htotal hpm hpmv hcust hvalid
  simp only [createOrder]
  rw [if_neg (by simp [hcid, hitems, htotal, hpm]),
    if_neg (by rw [hpmv]; simp), if_neg (by rw [hcust]; simp),
    validateItems_ok_of_valid items hvalid]
  by_cases hm : 1/100 < |calcItemsTotal (items.map normItem) - round2 total|
  · simp [hm]
  · simp [hm]

/-- Witness for C4 at a concrete input: the Shirt request with total
20.00 (calculated 18.00) instantiates the mismatch characterization. -/
theorem totalMismatch_vs_rounded_diff_witness :
    createOrder ["c1"] 0 "u1" 3
      ⟨some "c1", some [⟨"Shirt", 9, 2, none⟩], some 20, some "cash",
        none, false, []⟩ = .error .totalMismatch ↔
    1/100 < |calcItemsTotal ([(⟨"Shirt", 9, 2, none⟩ : OrderItemInput)].map
      normItem) - round2 20| :=
  totalMismatch_vs_rounded_diff.1 ["c1"] 0 "u1" 3 "c1"
    [⟨"Shirt", 9, 2, none⟩] 20 "cash" none false [] (by decide) (by simp)
    (by norm_num) (by decide) (by decide) (by decide)
    (fun i hi => by
      simp only [List.mem_singleton] at hi
      subst hi
      exact ⟨by decide, by norm_num, by norm_num⟩)

/-- A request whose raw price (0.006) rounds up to a stored price of 0.01:
item validation passes, the raw difference |0.006·3 − 0.01| = 0.008 is
within the 0.01 tolerance, yet the code compares the rounded values
|0.01·3 − 0.01| = 0.02 and rejects. -/
def mismatchRequest : CreateOrderRequest :=
  { customerId := some "c1", items := some [⟨"A", 3/500, 3, none⟩],
    total := some (1/100), paymentMethod := some "CASH",
    cashPaymentDetails := none, isExpress := false, stains := [] }

/-- Claim C4, counterexample: for the request with one valid item of raw
price 3/500 = 0.006 and quantity 3 and total 0.01, the raw difference
|Σ price·quantity − total| = 0.008 does not exceed 0.01, yet creation
rejects with `TotalMismatch`, because the comparison uses the stored
price rounded to 0.01. -/
theorem rounded_prices_break_raw_diff_bound :
    createOrder ["c1"] 0 "u1" 0 mismatchRequest = .error .totalMismatch ∧
    ¬ ((1 : ℚ)/100 < |(3/500 * 3 : ℚ) - 1/100|) ∧
    ((⟨"A", 3/500, 3, none⟩ : OrderItemInput).name ≠ "" ∧
      0 ≤ (⟨"A", 3/500, 3, none⟩ : OrderItemInput).price ∧
      1 ≤ (⟨"A", 3/500, 3, none⟩ : OrderItemInput).quantity) :=
  ⟨by with_unfolding_all rfl,
   by rw [abs_of_nonneg (by norm_num)]; norm_num,
   by decide, by norm_num, by norm_num⟩

end LaundryOS
